import Mathlib

/-!
Verification of the tool-invocation round-trip protocol of the
MCP-MasterClass repository, shallowly embedded in Lean 4.

The embedding covers:
* `src/1-MCP-Demo/mcp_server.py` — the FastAPI multiply tool endpoint
  (`multiply`, `call_multiply`, `home`);
* `src/3-LLM-Integration/client.py` — the `MCPGroqClient` orchestrator
  (`get_mcp_tools`, `process_query`, `cleanup`, `main`);
* `src/4-MCP-vs-Function_Calling/function_calling.py` — the direct
  function-calling flow;
* a Session model written from the specification (the `ClientSession`
  implementation lives in the external `mcp` library, not in this
  repository; only its callers are in the source).

Python dictionaries of JSON data are modelled as association lists of
`Json` values; JSON numbers are modelled as `Int` (the repository only
exercises integers).  Machine behaviour of Python operators that the
handlers rely on (duck-typed `*` and `+`, `**kwargs` binding) is embedded
explicitly, including the `TypeError` cases.
-/

/-- JSON values, as produced by `json.loads` / FastAPI body parsing.
Numbers are integers (the repository only uses integer payloads). -/
inductive Json where
  | null : Json
  | bool (b : Bool) : Json
  | num (n : Int) : Json
  | str (s : String) : Json
  | arr (xs : List Json) : Json
  | obj (kvs : List (String × Json)) : Json
deriving Repr

/-- Errors raised or returned across the embedded system.  `typeError` is
Python's `TypeError`; the remaining constructors are the specification's
error taxonomy (§7). -/
inductive Err where
  | typeError
  | invalidArguments
  | unknownTool
  | notInitialized
  | transportError
  | apiError
deriving Repr, DecidableEq

/-- First-match lookup in an association list, i.e. Python `dict` access
(keys of a parsed JSON object are unique, so first-match is exact). -/
def jsonLookup (kvs : List (String × Json)) (k : String) : Option Json :=
  match kvs with
  | [] => none
  | (k2, v) :: rest => if k2 = k then some v else jsonLookup rest k

/-- Python `dict.get(k, default)`. -/
def jsonGetD (kvs : List (String × Json)) (k : String) (d : Json) : Json :=
  (jsonLookup kvs k).getD d

/-- Python string repetition `s * n` (non-positive `n` gives `""`). -/
def strRep (s : String) : Int → String
  | Int.ofNat n => String.join (List.replicate n s)
  | Int.negSucc _ => ""

/-- Python list repetition `xs * n` (non-positive `n` gives `[]`). -/
def listRep (xs : List Json) : Int → List Json
  | Int.ofNat n => (List.replicate n xs).flatten
  | Int.negSucc _ => []

/-- A JSON value usable as a Python integer under arithmetic: numbers, and
booleans (Python `bool` is a subtype of `int`). -/
def asInt : Json → Option Int
  | Json.num n => some n
  | Json.bool b => some (if b then 1 else 0)
  | _ => none

/-- Python `a * b` on JSON-representable values: integer product,
string/list repetition by an integer, `TypeError` otherwise (in
particular for `None` and `dict` operands). -/
def pyMul (a b : Json) : Except Err Json :=
  match asInt a, asInt b with
  | some i, some j => Except.ok (Json.num (i * j))
  | some i, none =>
    match b with
    | Json.str s => Except.ok (Json.str (strRep s i))
    | Json.arr xs => Except.ok (Json.arr (listRep xs i))
    | _ => Except.error Err.typeError
  | none, some j =>
    match a with
    | Json.str s => Except.ok (Json.str (strRep s j))
    | Json.arr xs => Except.ok (Json.arr (listRep xs j))
    | _ => Except.error Err.typeError
  | none, none => Except.error Err.typeError

/-- `def multiply(a, b): return a * b` from `mcp_server.py` (the
`mcp.tool()` call on the line above it discards its decorator, so
`multiply` stays a plain function). -/
def multiply (a b : Json) : Except Err Json :=
  pyMul a b

/-- An HTTP response: status code and JSON body. -/
structure HttpResponse where
  status : Nat
  body : Json
deriving Repr

/-- The `POST /shwa/mcp/multiply` handler from `mcp_server.py`:
`return {"result": multiply(data.get("a", 0), data.get("b", 0))}`.
A `.error` value is an exception escaping the handler (an unhandled
fault, which the framework surfaces as a non-200 response). -/
def call_multiply (data : List (String × Json)) : Except Err HttpResponse :=
  match multiply (jsonGetD data "a" (Json.num 0)) (jsonGetD data "b" (Json.num 0)) with
  | Except.ok v => Except.ok { status := 200, body := Json.obj [("result", v)] }
  | Except.error e => Except.error e

/-- The `GET /` handler from `mcp_server.py`. -/
def home : Except Err HttpResponse :=
  Except.ok { status := 200, body := Json.obj [("message", Json.str "Welcome To MCP Demo By Shwa 🥤")] }

/-- An incoming HTTP request to the demo server: either a POST to the
multiply endpoint with a parsed JSON object body, or a GET of the root. -/
inductive Request where
  | multiplyPost (data : List (String × Json)) : Request
  | homeGet : Request
deriving Repr

/-- Dispatch one request to its handler.  The handlers close over no
mutable state in the source, so dispatch is a pure function of the
request. -/
def handleRequest : Request → Except Err HttpResponse
  | Request.multiplyPost data => call_multiply data
  | Request.homeGet => home

/-- The server processing a sequence of requests in order. -/
def serveAll : List Request → List (Except Err HttpResponse)
  | [] => []
  | r :: rest => handleRequest r :: serveAll rest

/-- A tool description as returned by the Tool Provider's discovery
(`tool.name`, `tool.description`, `tool.inputSchema`). -/
structure ToolDescriptor where
  name : String
  description : String
  inputSchema : Json
deriving Repr

/-- The nested `function` object of a Groq tool schema. -/
structure GroqFunctionSchema where
  name : String
  description : String
  parameters : Json
deriving Repr

/-- A tool schema in the format the Groq model expects:
`{"type": "function", "function": {...}}`. -/
structure GroqToolSchema where
  type : String
  function : GroqFunctionSchema
deriving Repr

/-- The per-descriptor schema adaptation performed inside
`MCPGroqClient.get_mcp_tools` (`client.py` lines 81-91). -/
def adaptTool (t : ToolDescriptor) : GroqToolSchema :=
  { type := "function"
    function :=
      { name := t.name
        description := t.description
        parameters := t.inputSchema } }

/-- `MCPGroqClient.get_mcp_tools`: adapt every descriptor the provider
advertises into Groq format. -/
def get_mcp_tools (ts : List ToolDescriptor) : List GroqToolSchema :=
  ts.map adaptTool

/-- One tool call requested by the model
(`tool_call.id`, `tool_call.function.name`,
`tool_call.function.arguments`).  The argument payload is modelled after
`json.loads` has decoded the wire string, since the Model API is an
opaque collaborator that returns JSON-encoded arguments. -/
structure ToolCall where
  id : String
  name : String
  arguments : Json
deriving Repr

/-- One chat-completions response message from the model: text content
plus a (possibly empty) list of requested tool calls.  An absent
`tool_calls` field is the empty list (both are falsy in the source's
`if assistant_message.tool_calls`). -/
structure ModelResponse where
  content : String
  tool_calls : List ToolCall
deriving Repr

/-- A conversation message, as assembled by the orchestrators. -/
inductive Message where
  | user (content : String) : Message
  | assistant (resp : ModelResponse) : Message
  | tool (tool_call_id : String) (content : String) : Message
deriving Repr

/-- Observable events of one orchestrator run.  A `modelCall` records the
messages sent, the `tools` parameter (`none` when not passed) and the
`tool_choice` parameter (`none` when not passed); a `toolCall` records
one tool execution (a `call_tool` on the session, or a direct function
call). -/
inductive Event where
  | modelCall (messages : List Message) (tools : Option (List GroqToolSchema))
      (tool_choice : Option String) : Event
  | toolCall (name : String) (arguments : Json) : Event
  | connect : Event
  | cleanup : Event
deriving Repr

/-- Is this event a model call? -/
def Event.isModelCall : Event → Bool
  | Event.modelCall _ _ _ => true
  | _ => false

/-- Is this event a tool call? -/
def Event.isToolCall : Event → Bool
  | Event.toolCall _ _ => true
  | _ => false

/-- The `tool_choice` parameter of each model call of a trace, in order. -/
def modelCallChoices (evs : List Event) : List (Option String) :=
  evs.filterMap fun e =>
    match e with
    | Event.modelCall _ _ c => some c
    | _ => none

/-- The tool-call loop of `MCPGroqClient.process_query` (`client.py`
lines 127-141): execute each requested call in order via
`session.call_tool`, appending one `{"role": "tool", "tool_call_id":
tool_call.id, "content": result.content[0].text}` message per request.
`exec name arguments` is the session's tool execution, returning the
result text or raising.  A raising call aborts the loop (the exception
propagates out of `process_query`). -/
def runTools (exec : String → Json → Except Err String) :
    List ToolCall → List Event × Except Err (List Message)
  | [] => ([], Except.ok [])
  | tc :: rest =>
    match exec tc.name tc.arguments with
    | Except.error e => ([Event.toolCall tc.name tc.arguments], Except.error e)
    | Except.ok content =>
      match runTools exec rest with
      | (evs, Except.error e) =>
        (Event.toolCall tc.name tc.arguments :: evs, Except.error e)
      | (evs, Except.ok msgs) =>
        (Event.toolCall tc.name tc.arguments :: evs,
         Except.ok (Message.tool tc.id content :: msgs))

/-- `MCPGroqClient.process_query` (`client.py` lines 94-154).
`ts` is what `session.list_tools` advertises (adapted by
`get_mcp_tools`); `oracle n` is the model's behaviour on the n-th
chat-completions call of this run (`Except.error` = the API call
raises); `exec` is the session's `call_tool`.  Returns the trace of
events together with the returned text or the propagated exception. -/
def process_query (ts : List ToolDescriptor) (oracle : Nat → Except Err ModelResponse)
    (exec : String → Json → Except Err String) (query : String) :
    List Event × Except Err String :=
  let tools := get_mcp_tools ts
  let e1 := Event.modelCall [Message.user query] (some tools) (some "auto")
  match oracle 0 with
  | Except.error e => ([e1], Except.error e)
  | Except.ok r1 =>
    match r1.tool_calls with
    | [] => ([e1], Except.ok r1.content)
    | _ :: _ =>
      match runTools exec r1.tool_calls with
      | (tevs, Except.error e) => (e1 :: tevs, Except.error e)
      | (tevs, Except.ok toolMsgs) =>
        let msgs := [Message.user query, Message.assistant r1] ++ toolMsgs
        let e2 := Event.modelCall msgs (some tools) (some "none")
        match oracle 1 with
        | Except.error e => (e1 :: tevs ++ [e2], Except.error e)
        | Except.ok r2 => (e1 :: tevs ++ [e2], Except.ok r2.content)

/-- `MCPGroqClient.cleanup` followed by nothing: `main` (`client.py`
lines 162-176) runs connect and the query inside `try` and always runs
`cleanup` in `finally`.  `connectRes` is the outcome of
`connect_to_server` (which may raise). -/
def mainRun (connectRes : Except Err Unit) (ts : List ToolDescriptor)
    (oracle : Nat → Except Err ModelResponse)
    (exec : String → Json → Except Err String) (query : String) :
    List Event × Except Err String :=
  match connectRes with
  | Except.error e => ([Event.connect, Event.cleanup], Except.error e)
  | Except.ok _ =>
    match process_query ts oracle exec query with
    | (evs, out) => (Event.connect :: evs ++ [Event.cleanup], out)

/-- Python `a + b` on JSON-representable values: integer addition (with
bool-as-int coercion), string concatenation, list concatenation,
`TypeError` otherwise. -/
def pyAdd (a b : Json) : Except Err Json :=
  match a, b with
  | Json.str s1, Json.str s2 => Except.ok (Json.str (s1 ++ s2))
  | Json.arr x1, Json.arr x2 => Except.ok (Json.arr (x1 ++ x2))
  | _, _ =>
    match asInt a, asInt b with
    | some i, some j => Except.ok (Json.num (i + j))
    | _, _ => Except.error Err.typeError

/-- Modelled from the spec: the body of `add` from `tools.py`, which is
imported by `function_calling.py` but absent from the source tree.  The
spec registers `add(a: int, b: int) → int` ("Add two numbers together"),
i.e. the body returns `a + b`; the addition itself follows Python's
duck-typed `+`. -/
def add (a b : Json) : Except Err Json :=
  pyAdd a b

/-- Python keyword-argument binding for the call `add(**tool_args)`
(`function_calling.py` line 49) against the signature `add(a, b)`:
`TypeError` if `tool_args` is not a mapping, has an unexpected keyword,
or misses a required argument; otherwise the bound call `add(a, b)`.
No schema validation happens before the call. -/
def pyCallAdd (args : Json) : Except Err Json :=
  match args with
  | Json.obj kvs =>
    if kvs.all (fun kv => kv.1 == "a" || kv.1 == "b") then
      match jsonLookup kvs "a", jsonLookup kvs "b" with
      | some va, some vb => add va vb
      | _, _ => Except.error Err.typeError
    else Except.error Err.typeError
  | _ => Except.error Err.typeError

/-- Python `str(v)` for the values the flows feed to it (numbers,
strings, booleans, `None`; container rendering is abbreviated — the
repository's flows only stringify scalars). -/
def pyStr : Json → String
  | Json.num n => toString n
  | Json.str s => s
  | Json.bool b => if b then "True" else "False"
  | Json.null => "None"
  | Json.arr _ => "[...]"
  | Json.obj _ => "\x7b...\x7d"

/-- The literal tool schema list defined in `function_calling.py`
lines 16-32. -/
def fcTools : List GroqToolSchema :=
  [{ type := "function"
     function :=
       { name := "add"
         description := "Add two numbers together"
         parameters := Json.obj
           [("type", Json.str "object"),
            ("properties", Json.obj
              [("a", Json.obj [("type", Json.str "integer"),
                               ("description", Json.str "First number")]),
               ("b", Json.obj [("type", Json.str "integer"),
                               ("description", Json.str "Second number")])]),
            ("required", Json.arr [Json.str "a", Json.str "b"])] } }]

/-- The hard-coded user query of `function_calling.py`. -/
def fcQuery : String := "Calculate 25 + 17"

/-- The module-level flow of `function_calling.py` (lines 36-61): one
chat-completions call passing `tools` but no `tool_choice`; if the
response carries tool calls, take the first one, execute
`add(**tool_args)` directly, then a second chat-completions call passing
neither `tools` nor `tool_choice`, and print its content (returned here
as `some text`; `none` = the script ended without the tool branch). -/
def run_function_calling (oracle : Nat → Except Err ModelResponse) :
    List Event × Except Err (Option String) :=
  let e1 := Event.modelCall [Message.user fcQuery] (some fcTools) none
  match oracle 0 with
  | Except.error e => ([e1], Except.error e)
  | Except.ok r1 =>
    match r1.tool_calls with
    | [] => ([e1], Except.ok none)
    | tc :: _ =>
      match pyCallAdd tc.arguments with
      | Except.error e => ([e1, Event.toolCall "add" tc.arguments], Except.error e)
      | Except.ok v =>
        let e2 := Event.modelCall
          [Message.user fcQuery, Message.assistant r1, Message.tool tc.id (pyStr v)]
          none none
        match oracle 1 with
        | Except.error e => ([e1, Event.toolCall "add" tc.arguments, e2], Except.error e)
        | Except.ok r2 => ([e1, Event.toolCall "add" tc.arguments, e2], Except.ok (some r2.content))

/-- A request on a Session. -/
inductive SessionRequest where
  | initReq : SessionRequest
  | listToolsReq : SessionRequest
  | callToolReq (name : String) (arguments : Json) : SessionRequest
deriving Repr

/-- A reply from a Session. -/
inductive SessionReply where
  | ack : SessionReply
  | toolList (ts : List ToolDescriptor) : SessionReply
  | toolResult (content : String) : SessionReply
  | failure (e : Err) : SessionReply
deriving Repr

/-- Session state: whether the `initialize` handshake has completed. -/
structure SessionState where
  ready : Bool
deriving Repr, DecidableEq

/-- Modelled from the spec: one request-reply step of the Session state
machine of §4.2.  The `ClientSession` implementation lives in the
external `mcp` library, not in this repository (only its callers in
`client.py` are); per the spec, `initialize()` performs the handshake,
and any other method called before initialization fails with
`NotInitialized`.  `provider` is what discovery advertises and
`callImpl` the provider's invocation behaviour. -/
def sessionStep (provider : List ToolDescriptor)
    (callImpl : String → Json → Except Err String)
    (s : SessionState) (req : SessionRequest) : SessionState × SessionReply :=
  match req with
  | SessionRequest.initReq => ({ ready := true }, SessionReply.ack)
  | SessionRequest.listToolsReq =>
    if s.ready then (s, SessionReply.toolList provider)
    else (s, SessionReply.failure Err.notInitialized)
  | SessionRequest.callToolReq n a =>
    if s.ready then
      (s, match callImpl n a with
          | Except.ok c => SessionReply.toolResult c
          | Except.error e => SessionReply.failure e)
    else (s, SessionReply.failure Err.notInitialized)

/-- A freshly connected Session, handshake not yet performed. -/
def newSession : SessionState := { ready := false }

/-- Run a Session over a request sequence, threading the state. -/
def runSession (provider : List ToolDescriptor)
    (callImpl : String → Json → Except Err String) :
    SessionState → List SessionRequest → List SessionReply
  | _, [] => []
  | s, r :: rest =>
    let step := sessionStep provider callImpl s r
    step.2 :: runSession provider callImpl step.1 rest

/-- The `tools` parameter passed on each model call of a trace, in
order (`none` = the parameter was not passed). -/
def modelCallToolParams (evs : List Event) : List (Option (List GroqToolSchema)) :=
  evs.filterMap fun e =>
    match e with
    | Event.modelCall _ t _ => some t
    | _ => none

lemma runTools_ok (exec : String → Json → Except Err String) (f : ToolCall → String) :
    ∀ tcs : List ToolCall, (∀ tc ∈ tcs, exec tc.name tc.arguments = Except.ok (f tc)) →
    runTools exec tcs =
      (tcs.map fun tc => Event.toolCall tc.name tc.arguments,
       Except.ok (tcs.map fun tc => Message.tool tc.id (f tc)))
  | [], _ => rfl
  | tc :: rest, h => by
    have h1 : exec tc.name tc.arguments = Except.ok (f tc) := h tc (List.mem_cons_self _ _)
    have h2 := runTools_ok exec f rest (fun x hx => h x (List.mem_cons_of_mem _ hx))
    simp [runTools, h1, h2]

lemma process_query_fst_tools (ts : List ToolDescriptor)
    (oracle : Nat → Except Err ModelResponse) (exec : String → Json → Except Err String)
    (query : String) (r1 : ModelResponse) (f : ToolCall → String)
    (tc0 : ToolCall) (rest : List ToolCall)
    (h0 : oracle 0 = Except.ok r1) (h1 : r1.tool_calls = tc0 :: rest)
    (hex : ∀ tc ∈ r1.tool_calls, exec tc.name tc.arguments = Except.ok (f tc)) :
    (process_query ts oracle exec query).1 =
      Event.modelCall [Message.user query] (some (get_mcp_tools ts)) (some "auto")
        :: (r1.tool_calls.map fun tc => Event.toolCall tc.name tc.arguments)
        ++ [Event.modelCall
             ([Message.user query, Message.assistant r1]
               ++ r1.tool_calls.map fun tc => Message.tool tc.id (f tc))
             (some (get_mcp_tools ts)) (some "none")] := by
  have hrt := runTools_ok exec f r1.tool_calls hex
  rw [h1] at hrt
  cases hor : oracle 1 with
  | error e => simp only [process_query, h0, h1, hrt, hor]
  | ok r2 => simp only [process_query, h0, h1, hrt, hor]

lemma run_function_calling_fst (oracle : Nat → Except Err ModelResponse)
    (r1 : ModelResponse) (tc0 : ToolCall) (rest : List ToolCall) (v : Json)
    (h0 : oracle 0 = Except.ok r1) (h1 : r1.tool_calls = tc0 :: rest)
    (hv : pyCallAdd tc0.arguments = Except.ok v) :
    (run_function_calling oracle).1 =
      [Event.modelCall [Message.user fcQuery] (some fcTools) none,
       Event.toolCall "add" tc0.arguments,
       Event.modelCall
         [Message.user fcQuery, Message.assistant r1, Message.tool tc0.id (pyStr v)]
         none none] := by
  cases hor : oracle 1 with
  | error e => simp only [run_function_calling, h0, h1, hv, hor]
  | ok r2 => simp only [run_function_calling, h0, h1, hv, hor]

lemma modelCallChoices_toolCall_map (tcs : List ToolCall) :
    modelCallChoices (tcs.map fun tc => Event.toolCall tc.name tc.arguments) = [] := by
  induction tcs with
  | nil => rfl
  | cons a l _ => simp [modelCallChoices]

lemma modelCallToolParams_toolCall_map (tcs : List ToolCall) :
    modelCallToolParams (tcs.map fun tc => Event.toolCall tc.name tc.arguments) = [] := by
  induction tcs with
  | nil => rfl
  | cons a l _ => simp [modelCallToolParams]

lemma jsonLookup_mem (kvs : List (String × Json)) (k : String) (v : Json)
    (h : jsonLookup kvs k = some v) : ∃ kv ∈ kvs, kv.2 = v := by
  induction kvs with
  | nil => simp [jsonLookup] at h
  | cons kv2 rest ih =>
    obtain ⟨k2, v2⟩ := kv2
    rw [jsonLookup] at h
    split at h
    · exact ⟨(k2, v2), List.mem_cons_self _ _, Option.some.inj h⟩
    · obtain ⟨kv, hmem, hv⟩ := ih h
      exact ⟨kv, List.mem_cons_of_mem _ hmem, hv⟩

lemma serveAll_getElem (reqs : List Request) (i : Nat) :
    (serveAll reqs)[i]? = reqs[i]?.map handleRequest := by
  induction reqs generalizing i with
  | nil => simp [serveAll]
  | cons r rest ih => cases i <;> simp [serveAll, ih]

/-- Concrete model behaviour used to instantiate the theorems: the first
chat-completions call requests one `add` tool call with arguments
`{"a": 25, "b": 17}`; the second returns plain text. -/
def c1Oracle : Nat → Except Err ModelResponse := fun n =>
  if n = 0 then
    Except.ok
      { content := ""
        tool_calls :=
          [{ id := "call_1", name := "add"
             arguments := Json.obj [("a", Json.num 25), ("b", Json.num 17)] }] }
  else Except.ok { content := "The answer is 42", tool_calls := [] }

/-- Concrete session tool execution used to instantiate the theorems:
every call returns the result text "42". -/
def c1Exec : String → Json → Except Err String := fun _ _ => Except.ok "42"

/-- C1: for every query whose first model response requests exactly one
tool call (and whose single tool execution and follow-up model call do
not raise), `process_query` makes exactly two model calls and exactly
one tool-provider invocation, and the text it returns equals the content
of the second model call's response. -/
theorem process_query_single_tool_round_trip
    (ts : List ToolDescriptor) (oracle : Nat → Except Err ModelResponse)
    (exec : String → Json → Except Err String) (query : String)
    (r1 r2 : ModelResponse) (tc : ToolCall) (s : String)
    (h0 : oracle 0 = Except.ok r1) (h1 : r1.tool_calls = [tc])
    (hex : exec tc.name tc.arguments = Except.ok s)
    (h2 : oracle 1 = Except.ok r2) :
    ((process_query ts oracle exec query).1.filter Event.isModelCall).length = 2 ∧
    ((process_query ts oracle exec query).1.filter Event.isToolCall).length = 1 ∧
    (process_query ts oracle exec query).2 = Except.ok r2.content := by
  have hrt := runTools_ok exec (fun _ => s) [tc]
    (by intro x hx; rw [List.mem_singleton] at hx; subst hx; exact hex)
  refine ⟨?_, ?_, ?_⟩ <;>
    simp [process_query, h0, h1, hrt, h2, Event.isModelCall, Event.isToolCall]

/-- C1 witness: the concrete single-tool run. -/
theorem process_query_single_tool_round_trip_witness :
    ((process_query [] c1Oracle c1Exec "q").1.filter Event.isModelCall).length = 2 ∧
    ((process_query [] c1Oracle c1Exec "q").1.filter Event.isToolCall).length = 1 ∧
    (process_query [] c1Oracle c1Exec "q").2 = Except.ok "The answer is 42" :=
  process_query_single_tool_round_trip [] c1Oracle c1Exec "q" _ _ _ "42" rfl rfl rfl rfl

/-- C2: for every (nonempty) list of tool calls the model emits in one
response, `process_query` invokes the tool provider once per requested
call, in emitted order, and the follow-up model call's message list
appends exactly one tool-result message per request, in the same order,
each carrying the correlation id of its originating request. -/
theorem process_query_batch_order_and_ids
    (ts : List ToolDescriptor) (oracle : Nat → Except Err ModelResponse)
    (exec : String → Json → Except Err String) (query : String)
    (r1 : ModelResponse) (f : ToolCall → String) (tc0 : ToolCall) (rest : List ToolCall)
    (h0 : oracle 0 = Except.ok r1) (h1 : r1.tool_calls = tc0 :: rest)
    (hex : ∀ tc ∈ r1.tool_calls, exec tc.name tc.arguments = Except.ok (f tc)) :
    (process_query ts oracle exec query).1 =
      Event.modelCall [Message.user query] (some (get_mcp_tools ts)) (some "auto")
        :: (r1.tool_calls.map fun tc => Event.toolCall tc.name tc.arguments)
        ++ [Event.modelCall
             ([Message.user query, Message.assistant r1]
               ++ r1.tool_calls.map fun tc => Message.tool tc.id (f tc))
             (some (get_mcp_tools ts)) (some "none")] :=
  process_query_fst_tools ts oracle exec query r1 f tc0 rest h0 h1 hex

/-- C2 witness: the concrete single-tool run's full trace. -/
theorem process_query_batch_order_and_ids_witness :
    (process_query [] c1Oracle c1Exec "q").1 =
      Event.modelCall [Message.user "q"] (some []) (some "auto")
        :: [Event.toolCall "add" (Json.obj [("a", Json.num 25), ("b", Json.num 17)])]
        ++ [Event.modelCall
             [Message.user "q",
              Message.assistant
                { content := ""
                  tool_calls :=
                    [{ id := "call_1", name := "add"
                       arguments := Json.obj [("a", Json.num 25), ("b", Json.num 17)] }] },
              Message.tool "call_1" "42"]
             (some []) (some "none")] :=
  process_query_batch_order_and_ids [] c1Oracle c1Exec "q" _ (fun _ => "42") _ []
    rfl rfl (fun _ _ => rfl)

/-- C3 counterexample: in the direct function-calling flow a tool is
called, yet neither model call passes any `tool_choice` at all — the
second call does not explicitly disable tool use (it also passes no
`tools`), refuting the claim for that flow. -/
theorem function_calling_no_explicit_disable :
    (run_function_calling c1Oracle).1.filter Event.isToolCall =
      [Event.toolCall "add" (Json.obj [("a", Json.num 25), ("b", Json.num 17)])] ∧
    modelCallChoices (run_function_calling c1Oracle).1 = [none, none] ∧
    (none : Option String) ≠ some "none" :=
  ⟨rfl, rfl, fun h => nomatch h⟩

/-- C3 (amended): in the session-mediated client every execution that
called tools makes exactly two model calls, the second with
`tool_choice` explicitly set to `"none"`; the direct function-calling
script also stops after two model calls, but its follow-up call disables
tool use implicitly, passing neither `tools` nor `tool_choice`. -/
theorem follow_up_tool_choice_modes
    (ts : List ToolDescriptor) (oracle : Nat → Except Err ModelResponse)
    (exec : String → Json → Except Err String) (query : String)
    (r1 : ModelResponse) (f : ToolCall → String) (tc0 : ToolCall) (rest : List ToolCall)
    (h0 : oracle 0 = Except.ok r1) (h1 : r1.tool_calls = tc0 :: rest)
    (hex : ∀ tc ∈ r1.tool_calls, exec tc.name tc.arguments = Except.ok (f tc))
    (oracle2 : Nat → Except Err ModelResponse) (r1b : ModelResponse)
    (tcb : ToolCall) (restb : List ToolCall) (v : Json)
    (h0b : oracle2 0 = Except.ok r1b) (h1b : r1b.tool_calls = tcb :: restb)
    (hv : pyCallAdd tcb.arguments = Except.ok v) :
    modelCallChoices (process_query ts oracle exec query).1 = [some "auto", some "none"] ∧
    modelCallChoices (run_function_calling oracle2).1 = [none, none] ∧
    modelCallToolParams (run_function_calling oracle2).1 = [some fcTools, none] := by
  refine ⟨?_, ?_, ?_⟩
  · rw [process_query_fst_tools ts oracle exec query r1 f tc0 rest h0 h1 hex]
    simp [modelCallChoices, modelCallChoices_toolCall_map]
  · rw [run_function_calling_fst oracle2 r1b tcb restb v h0b h1b hv]
    rfl
  · rw [run_function_calling_fst oracle2 r1b tcb restb v h0b h1b hv]
    rfl

/-- C3 witness: the amended claim at the concrete single-tool run. -/
theorem follow_up_tool_choice_modes_witness :
    modelCallChoices (process_query [] c1Oracle c1Exec "q").1 = [some "auto", some "none"] ∧
    modelCallChoices (run_function_calling c1Oracle).1 = [none, none] ∧
    modelCallToolParams (run_function_calling c1Oracle).1 = [some fcTools, none] :=
  follow_up_tool_choice_modes [] c1Oracle c1Exec "q" _ (fun _ => "42") _ []
    rfl rfl (fun _ _ => rfl) c1Oracle _ _ [] (Json.num 42) rfl rfl rfl

/-- C4 counterexample: the direct flow executes `add(**tool_args)`
without validation; with the required key `"b"` missing the call raises
a Python `TypeError`, which is not the `InvalidArguments` failure the
claim requires. -/
theorem add_call_missing_key_not_invalid_arguments :
    pyCallAdd (Json.obj [("a", Json.num 25)]) = Except.error Err.typeError ∧
    Err.typeError ≠ Err.invalidArguments :=
  ⟨rfl, by decide⟩

/-- C4 (amended): the direct-call flow performs no schema validation
before executing the operation: any argument object missing a required
key makes `add(**tool_args)` raise an unhandled `TypeError` (not
`InvalidArguments`), while wrong-typed arguments are passed straight to
the operation, which may even succeed duck-typed (e.g. string
concatenation); no side effect is performed either way. -/
theorem add_call_no_validation (kvs : List (String × Json))
    (h : jsonLookup kvs "a" = none ∨ jsonLookup kvs "b" = none) :
    pyCallAdd (Json.obj kvs) = Except.error Err.typeError ∧
    pyCallAdd (Json.obj [("a", Json.str "4"), ("b", Json.str "2")]) =
      Except.ok (Json.str "42") := by
  refine ⟨?_, rfl⟩
  unfold pyCallAdd
  split
  · rename_i kvs2 heq
    injection heq with heq2
    subst heq2
    split
    · rcases h with h | h
      · rw [h]
      · rw [h]
        cases jsonLookup kvs "a" <;> rfl
    · rfl
  · rename_i hno
    exact (hno kvs rfl).elim

/-- C4 witness: the amended claim at the concrete argument object
missing `"b"`. -/
theorem add_call_no_validation_witness :
    pyCallAdd (Json.obj [("a", Json.num 25)]) = Except.error Err.typeError ∧
    pyCallAdd (Json.obj [("a", Json.str "4"), ("b", Json.str "2")]) =
      Except.ok (Json.str "42") :=
  add_call_no_validation [("a", Json.num 25)] (Or.inr rfl)

/-- C5: any request other than the `initialize` handshake, issued on a
fresh session before any `initialize`, is answered with
`NotInitialized` (modelled from the spec, §4.2: the `ClientSession`
implementation is external to the repository). -/
theorem session_before_init_fails (provider : List ToolDescriptor)
    (callImpl : String → Json → Except Err String) (reqs : List SessionRequest)
    (h : ∀ r ∈ reqs, r ≠ SessionRequest.initReq) :
    runSession provider callImpl newSession reqs =
      reqs.map fun _ => SessionReply.failure Err.notInitialized := by
  induction reqs with
  | nil => rfl
  | cons r rest ih =>
    have hr : r ≠ SessionRequest.initReq := h r (List.mem_cons_self _ _)
    have hstep : sessionStep provider callImpl newSession r =
        (newSession, SessionReply.failure Err.notInitialized) := by
      cases r with
      | initReq => exact absurd rfl hr
      | listToolsReq => rfl
      | callToolReq n a => rfl
    simp [runSession, hstep, ih (fun x hx => h x (List.mem_cons_of_mem _ hx))]

/-- C5 witness: `list_tools` then `call_tool` on a fresh session both
fail with `NotInitialized`. -/
theorem session_before_init_fails_witness :
    runSession [] (fun _ _ => Except.ok "") newSession
        [SessionRequest.listToolsReq,
         SessionRequest.callToolReq "multiply" (Json.obj [])] =
      [SessionReply.failure Err.notInitialized,
       SessionReply.failure Err.notInitialized] :=
  session_before_init_fails [] (fun _ _ => Except.ok "")
    [SessionRequest.listToolsReq,
     SessionRequest.callToolReq "multiply" (Json.obj [])]
    (by
      intro r hr
      rcases List.mem_cons.mp hr with h1 | h1
      · subst h1; exact fun hh => nomatch hh
      · rw [List.mem_singleton] at h1; subst h1; exact fun hh => nomatch hh)

/-- C6: a POST body mapping `"a"` to 6 and `"b"` to 5 yields a 200
response with body `("result", 30)`; in general any body with integer
values `a` and `b` yields `("result", a * b)` with status 200. -/
theorem call_multiply_integer_product :
    call_multiply [("a", Json.num 6), ("b", Json.num 5)] =
      Except.ok { status := 200, body := Json.obj [("result", Json.num 30)] } ∧
    ∀ a b : Int,
      call_multiply [("a", Json.num a), ("b", Json.num b)] =
        Except.ok { status := 200, body := Json.obj [("result", Json.num (a * b))] } :=
  ⟨rfl, fun _ _ => rfl⟩

/-- C7 counterexample: a body missing `"a"` whose present value is
`null` makes the handler raise an unhandled `TypeError` (Python `0 *
None`); and two bodies missing `"a"` with the same present key `"b"`
produce different results (`0` versus `""`), so the default is not the
same for every such body. -/
theorem call_multiply_missing_key_faults :
    call_multiply [("b", Json.null)] = Except.error Err.typeError ∧
    call_multiply [("b", Json.num 5)] =
      Except.ok { status := 200, body := Json.obj [("result", Json.num 0)] } ∧
    call_multiply [("b", Json.str "x")] =
      Except.ok { status := 200, body := Json.obj [("result", Json.str "")] } ∧
    Json.num 0 ≠ Json.str "" :=
  ⟨rfl, rfl, rfl, fun h => nomatch h⟩

/-- C7 (amended): for every POST body missing `"a"` or `"b"` whose
present values are all integers, the endpoint raises no fault and
returns the deterministic default `("result", 0)` (missing keys default
to 0); bodies with non-integer present values can instead produce
type-dependent results or an unhandled `TypeError`. -/
theorem call_multiply_missing_key_integer_default (data : List (String × Json))
    (hint : ∀ kv ∈ data, ∃ n : Int, kv.2 = Json.num n)
    (hmiss : jsonLookup data "a" = none ∨ jsonLookup data "b" = none) :
    call_multiply data =
      Except.ok { status := 200, body := Json.obj [("result", Json.num 0)] } := by
  have hval : ∀ k : String, ∃ m : Int, jsonGetD data k (Json.num 0) = Json.num m := by
    intro k
    unfold jsonGetD
    cases hk : jsonLookup data k with
    | none => exact ⟨0, rfl⟩
    | some v =>
      obtain ⟨kv, hmem, hv⟩ := jsonLookup_mem data k v hk
      obtain ⟨n, hn⟩ := hint kv hmem
      exact ⟨n, by rw [Option.getD_some, ← hv, hn]⟩
  rcases hmiss with hm | hm
  · obtain ⟨m, hb⟩ := hval "b"
    have ha : jsonGetD data "a" (Json.num 0) = Json.num 0 := by
      simp [jsonGetD, hm]
    simp [call_multiply, multiply, pyMul, ha, hb, asInt]
  · obtain ⟨m, ha⟩ := hval "a"
    have hb : jsonGetD data "b" (Json.num 0) = Json.num 0 := by
      simp [jsonGetD, hm]
    simp [call_multiply, multiply, pyMul, ha, hb, asInt]

/-- C7 witness: the amended claim at the concrete integer body missing
`"a"`. -/
theorem call_multiply_missing_key_integer_default_witness :
    call_multiply [("b", Json.num 5)] =
      Except.ok { status := 200, body := Json.obj [("result", Json.num 0)] } :=
  call_multiply_missing_key_integer_default [("b", Json.num 5)]
    (by
      intro kv hkv
      rw [List.mem_singleton] at hkv
      subst hkv
      exact ⟨5, rfl⟩)
    (Or.inl rfl)

/-- C8: the schema adaptation produces `type = "function"` and copies the
descriptor's name, description and input schema into
`function.{name, description, parameters}` unchanged, for every
descriptor; `get_mcp_tools` applies exactly this adaptation to each
advertised descriptor. -/
theorem adapt_preserves_descriptor (t : ToolDescriptor) :
    (adaptTool t).type = "function" ∧
    (adaptTool t).function.name = t.name ∧
    (adaptTool t).function.description = t.description ∧
    (adaptTool t).function.parameters = t.inputSchema ∧
    ∀ ts : List ToolDescriptor, get_mcp_tools ts = ts.map adaptTool :=
  ⟨rfl, rfl, rfl, rfl, fun _ => rfl⟩

/-- C9: whatever the outcomes of connecting, the model calls and the
tool executions — including every raising path — the last event of a
`main` run is the cleanup that tears the session's channel down. -/
theorem mainRun_always_cleans_up (connectRes : Except Err Unit)
    (ts : List ToolDescriptor) (oracle : Nat → Except Err ModelResponse)
    (exec : String → Json → Except Err String) (query : String) :
    (mainRun connectRes ts oracle exec query).1.getLast? = some Event.cleanup := by
  cases connectRes with
  | error e => rfl
  | ok u =>
    show (Event.connect :: ((process_query ts oracle exec query).1 ++ [Event.cleanup])).getLast? =
      some Event.cleanup
    rw [← List.cons_append, List.getLast?_concat]

/-- C10: the multiply endpoint is deterministic and stateless — in any
request sequence, two positions holding equal requests receive equal
responses, whatever lies between them. -/
theorem serveAll_stateless (reqs : List Request) (i j : Nat)
    (h : reqs[i]? = reqs[j]?) :
    (serveAll reqs)[i]? = (serveAll reqs)[j]? := by
  rw [serveAll_getElem, serveAll_getElem, h]

/-- C10 witness: two equal multiply requests around an interleaved root
request receive equal responses. -/
theorem serveAll_stateless_witness :
    (serveAll [Request.multiplyPost [("a", Json.num 6), ("b", Json.num 5)],
               Request.homeGet,
               Request.multiplyPost [("a", Json.num 6), ("b", Json.num 5)]])[0]? =
    (serveAll [Request.multiplyPost [("a", Json.num 6), ("b", Json.num 5)],
               Request.homeGet,
               Request.multiplyPost [("a", Json.num 6), ("b", Json.num 5)]])[2]? :=
  serveAll_stateless
    [Request.multiplyPost [("a", Json.num 6), ("b", Json.num 5)],
     Request.homeGet,
     Request.multiplyPost [("a", Json.num 6), ("b", Json.num 5)]]
    0 2 rfl
